import Mathlib

/-!
Shallow embedding of `yt_summarizer.py` (class `YouTubeSummarizer`) for
verification of its transcript-resolution fallback chain, URL parsing and
summary-request construction.  Python exceptions are modelled as `Except`
values; the external transcript service and text-generation stream are
modelled as explicit inputs.
-/

namespace YTSummarizer

/-- The user-facing language selector; the CLI validates it to `"eng"` or
`"pl"` before constructing the summarizer, so it is an enumeration here. -/
inductive Language where
  | eng
  | pl
deriving DecidableEq, Repr

/-- The user-facing language string `self.language`. -/
def langStr : Language → String
  | .eng => "eng"
  | .pl => "pl"

/-- The `language_map` dictionary of `get_transcript`
(`{"eng": "en", "pl": "pl"}`): maps the user-facing code to the service's
language code. -/
def langCode : Language → String
  | .eng => "en"
  | .pl => "pl"

/-- One timed transcript fragment.  The source accepts two shapes
(`yt_summarizer.py` lines 145-149): a dictionary, read with
`entry.get('text', '')`, or an object, read with
`getattr(entry, 'text', '')`. -/
inductive TranscriptEntry where
  | dict (fields : List (String × String))
  | attr (text : Option String)
deriving DecidableEq, Repr

/-- Text extraction from one entry, mirroring lines 144-149: dictionary
lookup of `'text'` with default `''`, or attribute access with default
`''`. -/
def entryText : TranscriptEntry → String
  | .dict fields => ((fields.find? (fun p => p.1 = "text")).map (·.2)).getD ""
  | .attr t => t.getD ""

/-- Modelled from the spec: one caption track of the external transcript
service (spec section 6), exposing `languageCode`, `isGenerated`,
`fetch() -> [TranscriptEntry] | Error` and
`translate(code) -> Track | Error`.  Since the source always calls
`translate(code).fetch()` in one expression (lines 104-124), the
composition is modelled as one fallible function `translate_fetch`. -/
structure Track where
  language_code : String
  is_generated : Bool
  fetch : Except String (List TranscriptEntry)
  translate_fetch : String → Except String (List TranscriptEntry)

/-- Modelled from the spec: the track listing returned by
`listTracks(videoId)` (spec section 6), two ordered collections —
the source iterates `_manually_created_transcripts.values()` and
`_generated_transcripts.values()` (lines 100, 115). -/
structure TranscriptList where
  manually_created : List Track
  generated : List Track

/-- Modelled from the spec: the external transcript service; the outcome of
`YouTubeTranscriptApi.list_transcripts(video_id)` (line 78) per video id. -/
structure TranscriptService where
  list_transcripts : String → Except String TranscriptList

/-- Modelled from the spec: `find_transcript` of the service's track
listing, used by the manual-language stage — "attempt to locate a
human-authored track whose language code matches the desired language"
(spec section 4.2, stage 2).  Returns the first manually created track
whose language code is among the requested codes. -/
def find_transcript (tl : TranscriptList) (codes : List String) : Except String Track :=
  match tl.manually_created.find? (fun t => t.language_code ∈ codes) with
  | some t => .ok t
  | none => .error "no transcript was found for the requested language codes"

/-- Modelled from the spec: `find_generated_transcript` of the service's
track listing, used by the auto-generated-language stage — "attempt to
locate a machine-generated track in the desired language" (spec
section 4.2, stage 3). -/
def find_generated_transcript (tl : TranscriptList) (codes : List String) : Except String Track :=
  match tl.generated.find? (fun t => t.language_code ∈ codes) with
  | some t => .ok t
  | none => .error "no generated transcript was found for the requested language codes"

/-- Manual-language stage (line 90):
`transcript_list.find_transcript([language_map[self.language]]).fetch()`.
Any error of the lookup or of the fetch is the stage's failure. -/
def manualStage (tl : TranscriptList) (lang : Language) : Except String (List TranscriptEntry) :=
  (find_transcript tl [langCode lang]).bind Track.fetch

/-- Auto-generated-language stage (line 95):
`transcript_list.find_generated_transcript([language_map[self.language]]).fetch()`. -/
def autoStage (tl : TranscriptList) (lang : Language) : Except String (List TranscriptEntry) :=
  (find_generated_transcript tl [langCode lang]).bind Track.fetch

/-- The per-track body shared by both loops of the translate-fallback stage
(lines 102-110 and 116-124): if the target language is English, translate
to `'en'` unconditionally; otherwise translate to the target's code when
the track's code differs, and fetch directly when it matches. -/
def translateLoopStep (lang : Language) (td : Track) : Except String (List TranscriptEntry) :=
  if lang = Language.eng then
    td.translate_fetch "en"
  else if td.language_code ≠ langCode lang then
    td.translate_fetch (langCode lang)
  else
    td.fetch

/-- Translate-fallback stage (lines 98-127): iterate the manually created
tracks and process the first one flagged `is_generated` (the loop `break`s
only inside that branch); if none qualifies, process the first generated
track (that loop `break`s unconditionally after one iteration).  `.ok none`
models `transcript` still being `None` after both loops. -/
def translateStage (lang : Language) (tl : TranscriptList) :
    Except String (Option (List TranscriptEntry)) :=
  match tl.manually_created.find? (fun t => t.is_generated) with
  | some td => (translateLoopStep lang td).map some
  | none =>
    match tl.generated with
    | td :: _ => (translateLoopStep lang td).map some
    | [] => .ok none

/-- The exceptions `get_transcript` can surface (lines 12-26). -/
inductive PyError where
  | transcriptNotFound (msg : String)
  | noTranscriptAvailable (msg : String)
  | translationError (msg : String)
  | transcriptProcessing (msg : String)
deriving DecidableEq, Repr

/-- Python's `str.strip()` with no argument: remove leading and trailing
whitespace.  Written over the character list so that it evaluates by
kernel reduction; on the ASCII whitespace that arises here it agrees with
Python's notion of whitespace. -/
def pyStrip (s : String) : String :=
  String.mk (((s.data.dropWhile Char.isWhitespace).reverse.dropWhile Char.isWhitespace).reverse)

/-- Normalization of a fetched entry sequence (lines 142-154): for each
entry extract the text, and when it is non-empty (Python truthiness)
append it followed by a space; finally strip the accumulated string. -/
def normalize (entries : List TranscriptEntry) : String :=
  pyStrip (entries.foldl
    (fun acc e =>
      let t := entryText e
      if t ≠ "" then acc ++ t ++ " " else acc)
    "")

/-- Lines 142-156: normalize the fetched entries and fail with
`TranscriptProcessingError` when no text remains. -/
def formatTranscript (entries : List TranscriptEntry) : Except PyError String :=
  let s := normalize entries
  if s = "" then
    .error (.transcriptProcessing "Transcript was retrieved but contained no text")
  else
    .ok s

/-- The aggregated diagnostic of lines 131-136. -/
def aggregateMsg (manual_error auto_error translation_error : String) : String :=
  "All transcript retrieval methods failed:\n- " ++ manual_error ++
    "\n- " ++ auto_error ++ "\n- " ++ translation_error

/-- The stage-failure message recorded at line 92. -/
def manualErrorMsg (lang : Language) (e : String) : String :=
  "Manual transcript not available in " ++ langStr lang ++ ": " ++ e

/-- The stage-failure message recorded at line 97. -/
def autoErrorMsg (lang : Language) (e : String) : String :=
  "Auto-generated transcript not available in " ++ langStr lang ++ ": " ++ e

/-- The stage-failure message recorded at line 130. -/
def translationErrorMsg (e : String) : String :=
  "Could not get or translate available transcript: " ++ e

/-- `YouTubeSummarizer.get_transcript` (lines 68-164).  The listing call's
failure short-circuits into `TranscriptNotFoundError`; then the strict
fallback chain manual → auto-generated → translate runs, each later stage
only on the previous stage's error; when the translate stage also fails
(by error, or by finding no candidate track — the `transcript is None`
raise at line 128 is caught by the same `except` at line 129), the
aggregated `NoTranscriptAvailableError` is raised; finally the fetched
entries are normalized. -/
def get_transcript (svc : TranscriptService) (lang : Language) (video_id : String) :
    Except PyError String :=
  match svc.list_transcripts video_id with
  | .error e =>
    .error (.transcriptNotFound
      ("Could not retrieve transcript list for video " ++ video_id ++ ": " ++ e))
  | .ok tl =>
    let fetched : Except PyError (List TranscriptEntry) :=
      match manualStage tl lang with
      | .ok t => .ok t
      | .error e1 =>
        match autoStage tl lang with
        | .ok t => .ok t
        | .error e2 =>
          match translateStage lang tl with
          | .ok (some t) => .ok t
          | .ok none =>
            .error (.noTranscriptAvailable
              (aggregateMsg (manualErrorMsg lang e1) (autoErrorMsg lang e2)
                (translationErrorMsg "No transcripts available for this video")))
          | .error e3 =>
            .error (.noTranscriptAvailable
              (aggregateMsg (manualErrorMsg lang e1) (autoErrorMsg lang e2)
                (translationErrorMsg e3)))
    match fetched with
    | .error e => .error e
    | .ok entries => formatTranscript entries

/-- The components of `urllib.parse.urlparse(url)` that
`extract_video_id` reads (lines 60-65): `hostname` (lower-cased host or
`None`), `path` and `query`.  For a URL with a network location, `path`
is empty or begins with `'/'`. -/
structure ParsedURL where
  hostname : Option String
  path : String
  query : String
deriving DecidableEq, Repr

/-- Split a character list at every occurrence of `c`, keeping empty
groups — the behavior of Python's `str.split` with an explicit
separator. -/
def splitChar (c : Char) : List Char → List (List Char)
  | [] => [[]]
  | ch :: rest =>
    if ch = c then [] :: splitChar c rest
    else
      match splitChar c rest with
      | [] => [[ch]]
      | grp :: grps => (ch :: grp) :: grps

/-- Split a character list at the first occurrence of `c` — Python's
`str.split(c, 1)`; `none` when `c` does not occur. -/
def splitFirst (c : Char) : List Char → Option (List Char × List Char)
  | [] => none
  | ch :: rest =>
    if ch = c then some ([], rest)
    else (splitFirst c rest).map (fun p => (ch :: p.1, p.2))

/-- `urllib.parse.parse_qs` restricted to what line 63 consumes: split the
query on `'&'`, split each field at its first `'='`, skip fields without
`'='` and fields whose value is empty (`keep_blank_values` is false).
Percent-decoding is not modelled; the extracted identifiers are plain
strings.  The result keeps the pairs in query order. -/
def parse_qs (qs : String) : List (String × String) :=
  (splitChar '&' qs.data).filterMap fun field =>
    match splitFirst '=' field with
    | none => none
    | some (name, value) =>
      if value = [] then none else some (String.mk name, String.mk value)

/-- `parse_qs(query)['v'][0]` (line 63): the first value recorded for the
key, or a `KeyError` (`none`) when the key has no value. -/
def firstQueryValue (qs : String) (key : String) : Option String :=
  ((parse_qs qs).find? (fun p => p.1 = key)).map (·.2)

/-- The ways `extract_video_id` can fail: the explicit
`ValueError("Invalid YouTube URL")` of line 66, or the uncaught `KeyError`
of the dictionary subscript at line 63. -/
inductive ExtractError where
  | invalidURL
  | keyError (key : String)
deriving DecidableEq, Repr

/-- `YouTubeSummarizer.extract_video_id` (lines 58-66) on an already
parsed URL: on the canonical hosts with path `/watch`, the first `v`
query value (a `KeyError` when absent); on the short-link host, the path
with its first character dropped (`path[1:]`); otherwise
`ValueError("Invalid YouTube URL")` — also when a canonical host's path
is not `/watch`, since that branch falls through to the `raise`. -/
def extract_video_id (u : ParsedURL) : Except ExtractError String :=
  if u.hostname = some "www.youtube.com" ∨ u.hostname = some "youtube.com" then
    if u.path = "/watch" then
      match firstQueryValue u.query "v" with
      | some v => .ok v
      | none => .error (.keyError "v")
    else
      .error .invalidURL
  else if u.hostname = some "youtu.be" then
    .ok (u.path.drop 1)
  else
    .error .invalidURL

/-- The three summary complexity tiers (line 236). -/
inductive Complexity where
  | simple
  | moderate
  | complex
deriving DecidableEq, Repr

/-- The fixed prompt table of `generate_summary` (lines 168-181). -/
def promptFor : Complexity → Language → String
  | .simple, .eng => "Provide a brief, simple overview of the main points in 2-3 sentences:"
  | .simple, .pl => "Przedstaw krótkie podsumowanie głównych punktów w 2-3 zdaniach:"
  | .moderate, .eng => "Create a detailed summary that covers the key points and important details in 4-6 sentences:"
  | .moderate, .pl => "Stwórz szczegółowe podsumowanie obejmujące kluczowe punkty i ważne detale w 4-6 zdaniach:"
  | .complex, .eng => "Generate a comprehensive analysis including main themes, key arguments, and important details. Include any relevant context and implications:"
  | .complex, .pl => "Stwórz kompleksową analizę zawierającą główne tematy, kluczowe argumenty i ważne szczegóły. Uwzględnij odpowiedni kontekst i implikacje:"

/-- The system-message content of lines 188-189. -/
def systemContent (lang : Language) : String :=
  "You are a helpful assistant that summarizes content. " ++
    (if lang = Language.pl then "Respond in Polish." else "Respond in English.")

/-- The keyword arguments assembled for `chat.completions.create`
(lines 185-204).  Absent dictionary keys are `none`. -/
structure ChatParams where
  model : String
  messages : List (String × String)
  stream : Bool
  temperature : Option ℚ
  max_tokens : Option Nat
  max_completion_tokens : Option Nat
deriving Repr

/-- Request construction of `generate_summary` (lines 185-204): base
parameters with `stream: True`, then either `max_completion_tokens`
(model `"o3-mini"`, no temperature) or `temperature: 0.7` with
`max_tokens` (any other model); the budget is 4000 for `complex` and
1000 otherwise. -/
def buildParams (model : String) (lang : Language) (complexity : Complexity)
    (text : String) : ChatParams :=
  let budget : Nat := if complexity = Complexity.complex then 4000 else 1000
  let base : ChatParams :=
    { model := model
      messages :=
        [("system", systemContent lang),
         ("user", promptFor complexity lang ++ "\n\n" ++ text)]
      stream := true
      temperature := none
      max_tokens := none
      max_completion_tokens := none }
  if model = "o3-mini" then
    { base with max_completion_tokens := some budget }
  else
    { base with temperature := some (0.7 : ℚ), max_tokens := some budget }

/-- The token budget a request carries, wherever it sits: the
`max_completion_tokens` value when present, else the `max_tokens` value. -/
def carriedBudget (p : ChatParams) : Option Nat :=
  match p.max_completion_tokens with
  | some n => some n
  | none => p.max_tokens

/-- The streaming loop of lines 207-222: accumulate every chunk whose
`delta.content` is not `None`, in arrival order, then `strip()` the
accumulated response.  A chunk is modelled by its optional content. -/
def processStream (chunks : List (Option String)) : String :=
  pyStrip (chunks.foldl
    (fun acc c =>
      match c with
      | some content => acc ++ content
      | none => acc)
    "")

/-- The concatenation, in arrival order, of all streamed fragments with
non-null content — the spec's description of the streaming result, used to
compare against `processStream`. -/
def concatNonNull (chunks : List (Option String)) : String :=
  String.join (chunks.filterMap id)

/-- A manually created track flagged as machine generated whose language
code is already the service code for English, whose direct fetch fails,
and whose translation to `'en'` succeeds with distinct content. -/
def c1Track : Track :=
  { language_code := "en"
    is_generated := true
    fetch := .error "direct fetch failed"
    translate_fetch := fun code =>
      if code = "en" then .ok [TranscriptEntry.attr (some "TRANSLATED")]
      else .error "unsupported target" }

/-- A service whose listing holds `c1Track` as its only (manual) track. -/
def c1Service : TranscriptService :=
  ⟨fun _ => .ok ⟨[c1Track], []⟩⟩

/-- A manually created, machine-generated track in a third language
(`"de"`), used to exercise the non-English translate-fallback paths. -/
def plTrack : Track :=
  { language_code := "de"
    is_generated := true
    fetch := .ok []
    translate_fetch := fun code => .ok [TranscriptEntry.attr (some code)] }

/-- An empty track listing: every fallback stage fails on it. -/
def emptyListing : TranscriptList :=
  ⟨[], []⟩

/-- A service that always returns the empty track listing. -/
def emptyListingService : TranscriptService :=
  ⟨fun _ => .ok emptyListing⟩

/-! ## Helper lemmas -/

instance {ε α : Type} [DecidableEq ε] [DecidableEq α] : DecidableEq (Except ε α) := fun a b =>
  match a, b with
  | .error e1, .error e2 =>
    if h : e1 = e2 then .isTrue (by rw [h])
    else .isFalse (fun hh => by cases hh; exact h rfl)
  | .error _, .ok _ => .isFalse (fun hh => by cases hh)
  | .ok _, .error _ => .isFalse (fun hh => by cases hh)
  | .ok a1, .ok a2 =>
    if h : a1 = a2 then .isTrue (by rw [h])
    else .isFalse (fun hh => by cases hh; exact h rfl)

/-- Normalization depends only on the texts extracted from the entries. -/
theorem normalize_eq_fold_texts (es : List TranscriptEntry) :
    normalize es =
      pyStrip ((es.map entryText).foldl
        (fun acc t => if t ≠ "" then acc ++ t ++ " " else acc) "") := by
  unfold normalize
  rw [List.foldl_map]

/-- Every value recorded by `parse_qs` is non-empty: blank values are
dropped (`keep_blank_values` is false). -/
theorem parse_qs_value_ne_empty {qs : String} {p : String × String}
    (hp : p ∈ parse_qs qs) : p.2 ≠ "" := by
  unfold parse_qs at hp
  rw [List.mem_filterMap] at hp
  obtain ⟨field, -, hf⟩ := hp
  revert hf
  match splitFirst '=' field with
  | none => intro h; cases h
  | some (name, value) =>
    simp only []
    split
    · intro h; cases h
    · intro h
      cases h
      rename_i hvne
      intro habs
      apply hvne
      have habs' : String.mk value = String.mk [] := habs
      simpa using congrArg String.data habs'

/-- A successful first-value query lookup yields a non-empty value. -/
theorem firstQueryValue_ne_empty {qs key v : String}
    (h : firstQueryValue qs key = some v) : v ≠ "" := by
  unfold firstQueryValue at h
  rw [Option.map_eq_some'] at h
  obtain ⟨p, hfind, hv⟩ := h
  have hmem := List.mem_of_find?_eq_some hfind
  have hne := parse_qs_value_ne_empty hmem
  rw [hv] at hne
  exact hne

/-! ## Claim theorems -/

/-- C3: for every video identifier, if the initial request for the track
listing fails, transcript resolution fails immediately with
`TranscriptNotFoundError` (the listing failure wrapped in its message) and
no further fallback stage is attempted — the result does not depend on any
track data. -/
theorem C3_list_failure_short_circuits (svc : TranscriptService) (lang : Language)
    (video_id e : String) (h : svc.list_transcripts video_id = .error e) :
    get_transcript svc lang video_id =
      .error (.transcriptNotFound
        ("Could not retrieve transcript list for video " ++ video_id ++ ": " ++ e)) := by
  unfold get_transcript
  rw [h]

/-- Witness for C3 at a concrete failing service. -/
theorem C3_witness :
    get_transcript ⟨fun _ => .error "boom"⟩ Language.eng "vid" =
      .error (.transcriptNotFound
        ("Could not retrieve transcript list for video " ++ "vid" ++ ": " ++ "boom")) :=
  C3_list_failure_short_circuits ⟨fun _ => .error "boom"⟩ Language.eng "vid" "boom" rfl

/-- C5: normalization extracts each entry's text (both the key-value and
the attribute-bearing shape), joins the texts with single separating
spaces and trims; `[{text:"Hello"}, {text:"world"}]` yields
`"Hello world"`; normalization depends only on the extracted texts; and an
empty normalized result fails with the processing error, a constructor
distinct from the retrieval-failure errors. -/
theorem C5_normalization :
    formatTranscript
        [TranscriptEntry.dict [("text", "Hello")], TranscriptEntry.dict [("text", "world")]] =
      .ok "Hello world" ∧
    formatTranscript
        [TranscriptEntry.attr (some "Hello"), TranscriptEntry.dict [("text", "world")]] =
      .ok "Hello world" ∧
    (∀ es es' : List TranscriptEntry,
      es.map entryText = es'.map entryText → normalize es = normalize es') ∧
    (∀ es : List TranscriptEntry, normalize es = "" →
      formatTranscript es =
        .error (.transcriptProcessing "Transcript was retrieved but contained no text")) ∧
    (∀ m m' : String,
      PyError.transcriptProcessing m ≠ PyError.transcriptNotFound m' ∧
      PyError.transcriptProcessing m ≠ PyError.noTranscriptAvailable m') := by
  refine ⟨by decide, by decide, ?_, ?_, ?_⟩
  · intro es es' hmap
    rw [normalize_eq_fold_texts, normalize_eq_fold_texts, hmap]
  · intro es hempty
    unfold formatTranscript
    simp [hempty]
  · intro m m'
    exact ⟨fun h => PyError.noConfusion h, fun h => PyError.noConfusion h⟩

/-- Witness for C5: the empty entry list normalizes to nothing and fails
with the processing error. -/
theorem C5_witness :
    formatTranscript [] =
      .error (.transcriptProcessing "Transcript was retrieved but contained no text") :=
  C5_normalization.2.2.2.1 [] (by decide)

/-- C6 counterexample: on the canonical host with path `/watch` and no
`v` parameter, extraction fails with the uncaught dictionary `KeyError`,
not with the `InvalidURL` error the claim names. -/
theorem C6_counterexample :
    extract_video_id ⟨some "www.youtube.com", "/watch", ""⟩ =
      .error (.keyError "v") ∧
    (Except.error (ExtractError.keyError "v") : Except ExtractError String) ≠
      .error .invalidURL := by
  decide

/-- C6 amended: on a canonical host (with or without the `www` prefix)
with path `/watch`, extraction returns the first `v` query value exactly
and fails with a `KeyError` — not `InvalidURL` — when `v` is absent; a
canonical host with another path fails with `InvalidURL`; the short-link
host returns the path minus its first character; any other host fails
with `InvalidURL`. -/
theorem C6_extraction (u : ParsedURL) :
    ((u.hostname = some "www.youtube.com" ∨ u.hostname = some "youtube.com") →
      (u.path = "/watch" →
        (∀ v, firstQueryValue u.query "v" = some v → extract_video_id u = .ok v) ∧
        (firstQueryValue u.query "v" = none →
          extract_video_id u = .error (.keyError "v"))) ∧
      (u.path ≠ "/watch" → extract_video_id u = .error .invalidURL)) ∧
    (u.hostname = some "youtu.be" → extract_video_id u = .ok (u.path.drop 1)) ∧
    (u.hostname ≠ some "www.youtube.com" → u.hostname ≠ some "youtube.com" →
      u.hostname ≠ some "youtu.be" → extract_video_id u = .error .invalidURL) := by
  refine ⟨fun hcanon => ⟨fun hpath => ⟨fun v hv => ?_, fun hv => ?_⟩, fun hpath => ?_⟩,
    fun hshort => ?_, fun h1 h2 h3 => ?_⟩
  · unfold extract_video_id
    rw [if_pos hcanon, if_pos hpath, hv]
  · unfold extract_video_id
    rw [if_pos hcanon, if_pos hpath, hv]
  · unfold extract_video_id
    rw [if_pos hcanon, if_neg hpath]
  · unfold extract_video_id
    rw [if_neg ?_, if_pos hshort]
    rw [hshort]
    rintro (h | h) <;> simp at h
  · unfold extract_video_id
    rw [if_neg ?_, if_neg h3]
    rintro (h | h)
    · exact h1 h
    · exact h2 h

/-- Witness for C6 amended at a concrete canonical watch URL whose query
holds `v` as its second parameter. -/
theorem C6_witness :
    extract_video_id ⟨some "youtube.com", "/watch", "t=10&v=abc123"⟩ = .ok "abc123" :=
  (((C6_extraction ⟨some "youtube.com", "/watch", "t=10&v=abc123"⟩).1
    (Or.inr rfl)).1 rfl).1 "abc123" (by decide)

/-- C7 counterexample: on the short-link host with an empty path,
extraction succeeds and returns the empty identifier, violating the
non-emptiness invariant as claimed. -/
theorem C7_counterexample :
    extract_video_id ⟨some "youtu.be", "", ""⟩ = .ok "" := by
  decide

/-- C7 amended: on the canonical hosts every successful extraction
returns a non-empty identifier (query values recorded by `parse_qs` are
never blank); only the short-link branch can return an empty identifier,
and only when the path has at most one character. -/
theorem C7_nonempty_id (u : ParsedURL) (v : String)
    (hcanon : u.hostname = some "www.youtube.com" ∨ u.hostname = some "youtube.com")
    (hok : extract_video_id u = .ok v) : v ≠ "" := by
  unfold extract_video_id at hok
  rw [if_pos hcanon] at hok
  by_cases hpath : u.path = "/watch"
  · rw [if_pos hpath] at hok
    cases hq : firstQueryValue u.query "v" with
    | none => rw [hq] at hok; cases hok
    | some w =>
      rw [hq] at hok
      cases hok
      exact firstQueryValue_ne_empty hq
  · rw [if_neg hpath] at hok
    cases hok

/-- Witness for C7 amended at a concrete canonical watch URL. -/
theorem C7_witness :
    extract_video_id ⟨some "youtube.com", "/watch", "v=x"⟩ = .ok "x" ∧ "x" ≠ "" :=
  ⟨by decide,
   C7_nonempty_id ⟨some "youtube.com", "/watch", "v=x"⟩ "x" (Or.inr rfl) (by decide)⟩

/-- C1 counterexample: a manually created track flagged as machine
generated whose language code is already the target's code (`"en"`, target
English).  The claim says it is fetched directly without translation; the
code translates it to `'en'` unconditionally (line 104), so the resolver
returns the translated content even though the direct fetch behaves
differently. -/
theorem C1_counterexample :
    c1Track.is_generated = true ∧
    c1Track.language_code = langCode Language.eng ∧
    translateLoopStep Language.eng c1Track ≠ c1Track.fetch ∧
    get_transcript c1Service Language.eng "vid" = .ok "TRANSLATED" := by
  decide

/-- C1 amended: in the translate-fallback stage, the first manually
created track flagged as machine generated is processed as follows — for
the English target it is always translated to `'en'`, even when its
language code is already `'en'`; for a non-English target it is translated
to the target's code when the track's code differs and fetched directly
when it matches. -/
theorem C1_translate_step (lang : Language) (td : Track) (tl : TranscriptList)
    (hfind : tl.manually_created.find? (fun t => t.is_generated) = some td) :
    translateStage lang tl = (translateLoopStep lang td).map some ∧
    (lang = Language.eng → translateLoopStep lang td = td.translate_fetch "en") ∧
    (lang ≠ Language.eng →
      (td.language_code ≠ langCode lang →
        translateLoopStep lang td = td.translate_fetch (langCode lang)) ∧
      (td.language_code = langCode lang → translateLoopStep lang td = td.fetch)) := by
  refine ⟨?_, fun heng => ?_, fun hne => ⟨fun hdiff => ?_, fun heq => ?_⟩⟩
  · unfold translateStage
    rw [hfind]
  · unfold translateLoopStep
    rw [if_pos heng]
  · unfold translateLoopStep
    rw [if_neg hne, if_pos hdiff]
  · unfold translateLoopStep
    rw [if_neg hne, if_neg (fun hd => hd heq)]

/-- Witness for C1 amended: a non-English target with a third-language
track is translated to the target's code. -/
theorem C1_witness :
    translateStage Language.pl ⟨[plTrack], []⟩ =
      (plTrack.translate_fetch "pl").map some ∧
    translateLoopStep Language.pl plTrack = plTrack.translate_fetch "pl" :=
  ⟨(C1_translate_step Language.pl plTrack ⟨[plTrack], []⟩ rfl).1,
   ((C1_translate_step Language.pl plTrack ⟨[plTrack], []⟩ rfl).2.2
     (by decide)).1 (by decide)⟩

/-- C2: with a track listing holding only an auto-generated English track
and English desired, the manual-language stage errors, the auto-generated
stage succeeds, and the resolver returns exactly that track's normalized
concatenated text. -/
theorem C2_auto_generated_fallback (es : List TranscriptEntry)
    (tf : String → Except String (List TranscriptEntry)) (video_id : String) :
    manualStage ⟨[], [⟨"en", true, .ok es, tf⟩]⟩ Language.eng =
      .error "no transcript was found for the requested language codes" ∧
    autoStage ⟨[], [⟨"en", true, .ok es, tf⟩]⟩ Language.eng = .ok es ∧
    get_transcript ⟨fun _ => .ok ⟨[], [⟨"en", true, .ok es, tf⟩]⟩⟩ Language.eng
        video_id =
      formatTranscript es := by
  exact ⟨rfl, rfl, rfl⟩

/-- C4: whenever the listing succeeds but every fallback stage fails —
the translate stage by raising, or by finding no candidate track (in
which case the inner `NoTranscriptAvailableError` message is recorded) —
the resolver raises `NoTranscriptAvailableError` whose message
concatenates the three stage failure messages. -/
theorem C4_aggregated_diagnostic (svc : TranscriptService) (tl : TranscriptList)
    (lang : Language) (video_id e1 e2 e3 : String)
    (hlist : svc.list_transcripts video_id = .ok tl)
    (h1 : manualStage tl lang = .error e1)
    (h2 : autoStage tl lang = .error e2)
    (h3 : translateStage lang tl = .error e3 ∨
          (translateStage lang tl = .ok none ∧
            e3 = "No transcripts available for this video")) :
    get_transcript svc lang video_id =
      .error (.noTranscriptAvailable
        (aggregateMsg (manualErrorMsg lang e1) (autoErrorMsg lang e2)
          (translationErrorMsg e3))) := by
  unfold get_transcript
  rcases h3 with h3 | ⟨h3, he⟩
  · simp only [hlist, h1, h2, h3]
  · subst he
    simp only [hlist, h1, h2, h3]

/-- Witness for C4: the empty listing fails every stage and yields the
aggregated diagnostic. -/
theorem C4_witness :
    get_transcript emptyListingService Language.eng "vid" =
      .error (.noTranscriptAvailable
        (aggregateMsg
          (manualErrorMsg Language.eng
            "no transcript was found for the requested language codes")
          (autoErrorMsg Language.eng
            "no generated transcript was found for the requested language codes")
          (translationErrorMsg "No transcripts available for this video"))) :=
  C4_aggregated_diagnostic emptyListingService emptyListing Language.eng "vid"
    "no transcript was found for the requested language codes"
    "no generated transcript was found for the requested language codes"
    "No transcripts available for this video"
    rfl rfl rfl (Or.inr ⟨rfl, rfl⟩)

/-- C8: for every summary request, the reasoning model `"o3-mini"` gets no
temperature and carries the budget in `max_completion_tokens`; every other
model gets `temperature = 0.7` and carries the budget in `max_tokens`. -/
theorem C8_model_specific_params (model : String) (lang : Language)
    (c : Complexity) (text : String) :
    (model = "o3-mini" →
      (buildParams model lang c text).temperature = none ∧
      (buildParams model lang c text).max_tokens = none ∧
      (buildParams model lang c text).max_completion_tokens =
        some (if c = Complexity.complex then 4000 else 1000)) ∧
    (model ≠ "o3-mini" →
      (buildParams model lang c text).temperature = some (0.7 : ℚ) ∧
      (buildParams model lang c text).max_completion_tokens = none ∧
      (buildParams model lang c text).max_tokens =
        some (if c = Complexity.complex then 4000 else 1000)) := by
  unfold buildParams
  constructor
  · intro h
    rw [if_pos h]
    exact ⟨rfl, rfl, rfl⟩
  · intro h
    rw [if_neg h]
    exact ⟨rfl, rfl, rfl⟩

/-- Witness for C8 at the reasoning model and at another model. -/
theorem C8_witness :
    (buildParams "o3-mini" Language.eng Complexity.simple "t").temperature = none ∧
    (buildParams "gpt-4o" Language.eng Complexity.simple "t").temperature =
      some (0.7 : ℚ) :=
  ⟨((C8_model_specific_params "o3-mini" Language.eng Complexity.simple "t").1 rfl).1,
   ((C8_model_specific_params "gpt-4o" Language.eng Complexity.simple "t").2
     (by decide)).1⟩

/-- C9: every constructed request streams; the carried token budget is
1000 for the simple and moderate tiers and 4000 for the complex tier in
streaming mode; the non-streaming clause of the claim holds vacuously,
because no constructed request has `stream = false`. -/
theorem C9_token_budget (model : String) (lang : Language) (c : Complexity)
    (text : String) :
    (buildParams model lang c text).stream = true ∧
    ((c = Complexity.simple ∨ c = Complexity.moderate) →
      carriedBudget (buildParams model lang c text) = some 1000) ∧
    (c = Complexity.complex → (buildParams model lang c text).stream = true →
      carriedBudget (buildParams model lang c text) = some 4000) ∧
    (c = Complexity.complex → (buildParams model lang c text).stream = false →
      carriedBudget (buildParams model lang c text) = some 2000) := by
  by_cases hm : model = "o3-mini" <;>
    rcases c with _ | _ | _ <;>
    simp [buildParams, carriedBudget, hm]

/-- Witness for C9: budgets of concrete requests. -/
theorem C9_witness :
    carriedBudget (buildParams "o3-mini" Language.eng Complexity.moderate "t") =
      some 1000 ∧
    carriedBudget (buildParams "gpt-4o" Language.pl Complexity.complex "t") =
      some 4000 :=
  ⟨(C9_token_budget "o3-mini" Language.eng Complexity.moderate "t").2.1 (Or.inr rfl),
   (C9_token_budget "gpt-4o" Language.pl Complexity.complex "t").2.2.1 rfl
     (C9_token_budget "gpt-4o" Language.pl Complexity.complex "t").1⟩

/-- C10 counterexample: a single fragment with leading and trailing
spaces — the generator strips the accumulated response before returning
it, so the returned text differs from the exact concatenation. -/
theorem C10_counterexample :
    processStream [some " hi "] = "hi" ∧
    concatNonNull [some " hi "] = " hi " ∧
    processStream [some " hi "] ≠ concatNonNull [some " hi "] := by
  decide

/-- C10 amended: the returned text equals the concatenation, in arrival
order, of all fragments with non-null content, with leading and trailing
whitespace stripped (`full_response.strip()` at line 222). -/
theorem C10_stream_concatenation (chunks : List (Option String)) :
    processStream chunks = pyStrip (concatNonNull chunks) := by
  unfold processStream concatNonNull
  congr 1
  have key : ∀ (cs : List (Option String)) (acc : String),
      cs.foldl
        (fun acc c => match c with | some content => acc ++ content | none => acc)
        acc = acc ++ String.join (cs.filterMap id) := by
    intro cs
    induction cs with
    | nil =>
      intro acc
      apply String.ext
      simp
    | cons c rest ih =>
      intro acc
      cases c with
      | none =>
        rw [List.foldl_cons]
        simpa using ih acc
      | some s =>
        rw [List.foldl_cons]
        show rest.foldl _ (acc ++ s) = _
        rw [ih (acc ++ s)]
        apply String.ext
        simp [List.filterMap_cons]
  rw [key chunks ""]
  apply String.ext
  simp

end YTSummarizer
